import Mathlib

set_option autoImplicit false

/- Shallow embedding of the voice-capture pipeline of the KindMap front end:
   the AudioRecorder service (src/services/audioRecorder.ts) and the
   useVoiceInput orchestrator hook (src/hooks/useVoiceInput.ts).
   Machine booleans and naturals stand in for the JS values; blob chunks are
   modelled by their byte counts, since only sizes drive the control flow;
   setTimeout tasks are modelled as explicit pending-timer entries consumed
   by a fire event, matching the single-threaded JS event loop. -/

/- ===== String constants of the source (kept in standalone defs) ===== -/

def notStartedMsg : String := "녹음이 시작되지 않았습니다"

def tooLargeMsg : String := "파일 크기가 너무 큽니다"

def silenceMsg : String := "음성이 감지되지 않았습니다"

def unsupportedMsg : String := "브라우저가 음성 녹음을 지원하지 않습니다"

def noMimeMsg : String := "지원되는 오디오 포맷이 없습니다"

def supportErrMsg : String := "음성 인식은 Chrome, Edge, Safari 브라우저에서만 지원됩니다"

def connectErrMsg : String := "서버 연결에 실패했습니다. 네트워크를 확인해주세요"

def permissionErrMsg : String := "마이크 권한이 필요합니다. 브라우저 설정에서 권한을 허용해주세요"

def startFallbackMsg : String := "녹음을 시작할 수 없습니다"

def sendFallbackMsg : String := "음성 전송에 실패했습니다"

def semicolonStr : String := ";"

def slashStr : String := "/"

def webmStr : String := "webm"

def emptyStr : String := ""

def mimeWebmOpus : String := "audio/webm;codecs=opus"

/- ===== AudioRecorder (src/services/audioRecorder.ts) ===== -/

/-- State of the underlying MediaRecorder object; the source only ever drives
it between recording and inactive. -/
inductive MRState where
  | recording
  | inactive
  deriving DecidableEq, Repr

/-- The errors thrown by the AudioRecorder methods, one per throw site. -/
inductive CaptureError where
  | notStarted
  | tooLarge
  | silence
  | unsupported
  | noMime
  | deviceError (msg : String)
  deriving DecidableEq, Repr

/-- The message carried by each thrown error, as in the source. -/
def CaptureError.message : CaptureError → String
  | .notStarted => notStartedMsg
  | .tooLarge => tooLargeMsg
  | .silence => silenceMsg
  | .unsupported => unsupportedMsg
  | .noMime => noMimeMsg
  | .deviceError m => m

/-- Successful outcome of stopRecording: the base64 payload, represented by
the list of chunk byte counts it encodes. -/
structure CaptureResult where
  payload : List Nat
  deriving DecidableEq, Repr

/-- Instance state of the AudioRecorder class. audioChunks holds the byte
count of each collected chunk; stream is true while the device stream is
held; recordingTimer is true while the maxDuration timeout is armed. -/
structure AudioRecorder where
  mediaRecorder : Option MRState
  audioChunks : List Nat
  stream : Bool
  startTime : Nat
  maxDuration : Nat
  maxFileSize : Nat
  sampleRate : Nat
  recordingTimer : Bool
  deriving DecidableEq, Repr

/-- JS-style defaulting: config.x or default, where 0 is falsy. -/
def orDefault (o : Option Nat) (d : Nat) : Nat :=
  match o with
  | none => d
  | some n => if n = 0 then d else n

/-- The AudioRecorder constructor with its config defaults. -/
def mkAudioRecorder (maxDuration maxFileSize sampleRate : Option Nat) : AudioRecorder :=
  { mediaRecorder := none
    audioChunks := []
    stream := false
    startTime := 0
    maxDuration := orDefault maxDuration 10000
    maxFileSize := orDefault maxFileSize (10 * 1024 * 1024)
    sampleRate := orDefault sampleRate 16000
    recordingTimer := false }

/-- Host environment seen by AudioRecorder.startRecording: platform support,
the selected mime type, whether getUserMedia succeeds, the device error
message when it does not, and the current clock value. -/
structure RecEnv where
  support : Bool
  mimeType : Option String
  gumOk : Bool
  gumError : String
  now : Nat
  deriving DecidableEq, Repr

/-- Size of the blob built from the collected chunks. -/
def blobSize (chunks : List Nat) : Nat := chunks.sum

/-- The private cleanup method: release the stream, drop the MediaRecorder,
clear the chunks, the start time and the duration timer. -/
def AudioRecorder.cleanup (s : AudioRecorder) : AudioRecorder :=
  { s with stream := false, mediaRecorder := none, audioChunks := [],
           startTime := 0, recordingTimer := false }

/-- AudioRecorder.startRecording: support and mime checks, then open the
stream, create the MediaRecorder, reset the chunks, record the start time
and arm the maxDuration timer; a device failure runs cleanup and rethrows. -/
def AudioRecorder.startRecording (env : RecEnv) (s : AudioRecorder) :
    Except CaptureError Unit × AudioRecorder :=
  if env.support = false then (Except.error CaptureError.unsupported, s)
  else
    match env.mimeType with
    | none => (Except.error CaptureError.noMime, s)
    | some _ =>
      if env.gumOk = false then
        (Except.error (CaptureError.deviceError env.gumError), s.cleanup)
      else
        (Except.ok (), { s with stream := true, mediaRecorder := some MRState.recording,
                                audioChunks := [], startTime := env.now,
                                recordingTimer := true })

/-- AudioRecorder.stopRecording: reject when no recorder is active (without
touching the timer, as in the source); otherwise clear the timer, build the
blob, apply the size and silence checks, and in every finalizing branch run
cleanup. -/
def AudioRecorder.stopRecording (s : AudioRecorder) :
    Except CaptureError CaptureResult × AudioRecorder :=
  if s.mediaRecorder = some MRState.recording then
    let s1 := { s with recordingTimer := false }
    let size := blobSize s1.audioChunks
    if s1.maxFileSize < size then (Except.error CaptureError.tooLarge, s1.cleanup)
    else if size < 1000 then (Except.error CaptureError.silence, s1.cleanup)
    else (Except.ok { payload := s1.audioChunks }, s1.cleanup)
  else (Except.error CaptureError.notStarted, s)

/-- AudioRecorder.cancelRecording: clear the timer, stop any active
MediaRecorder and run cleanup; no result is produced because cleanup
detaches the onstop handler before the stop event can run. -/
def AudioRecorder.cancelRecording (s : AudioRecorder) : AudioRecorder :=
  AudioRecorder.cleanup { s with recordingTimer := false }

/-- AudioRecorder.getRecordingDuration at clock value now. -/
def AudioRecorder.getRecordingDuration (now : Nat) (s : AudioRecorder) : Nat :=
  if s.startTime = 0 then 0 else now - s.startTime

/-- AudioRecorder.isRecording. -/
def AudioRecorder.isRecording (s : AudioRecorder) : Bool :=
  s.mediaRecorder = some MRState.recording

/-- Asynchronous events that can reach one AudioRecorder instance after it
has been started: its own maxDuration timer firing, a caller-initiated stop,
a cancel, and an ondataavailable chunk of n bytes. -/
inductive RecEvent where
  | timerFire
  | callerStop
  | cancel
  | dataChunk (n : Nat)
  deriving DecidableEq, Repr

/-- One event-loop step of a recorder instance; returns the CaptureResult
produced by the step, if any. The timer callback is one-shot and guards on
the MediaRecorder still recording, as in the source. -/
def recStep (e : RecEvent) (s : AudioRecorder) : Option CaptureResult × AudioRecorder :=
  match e with
  | .timerFire =>
    if s.recordingTimer then
      let s0 := { s with recordingTimer := false }
      if s0.mediaRecorder = some MRState.recording then
        ((AudioRecorder.stopRecording s0).1.toOption, (AudioRecorder.stopRecording s0).2)
      else (none, s0)
    else (none, s)
  | .callerStop =>
    ((AudioRecorder.stopRecording s).1.toOption, (AudioRecorder.stopRecording s).2)
  | .cancel => (none, AudioRecorder.cancelRecording s)
  | .dataChunk n =>
    if s.mediaRecorder = some MRState.recording ∧ 0 < n then
      (none, { s with audioChunks := s.audioChunks ++ [n] })
    else (none, s)

/-- Run a list of recorder events, collecting every CaptureResult produced. -/
def runRec (evs : List RecEvent) (s : AudioRecorder) : List CaptureResult × AudioRecorder :=
  match evs with
  | [] => ([], s)
  | e :: rest =>
    let p := recStep e s
    let q := runRec rest p.2
    (p.1.toList ++ q.1, q.2)

/-- Recorder states reachable from the constructor through the public
operations and the asynchronous events. -/
inductive RecReachable : AudioRecorder → Prop where
  | init (mo mf sr : Option Nat) : RecReachable (mkAudioRecorder mo mf sr)
  | start (env : RecEnv) (s : AudioRecorder) :
      RecReachable s → RecReachable (AudioRecorder.startRecording env s).2
  | evt (e : RecEvent) (s : AudioRecorder) :
      RecReachable s → RecReachable (recStep e s).2

/-- Resource invariant of the recorder: whenever no MediaRecorder is
actively recording, the device stream is released and the duration timer is
clear. -/
def RecInv (s : AudioRecorder) : Prop :=
  s.mediaRecorder ≠ some MRState.recording → s.stream = false ∧ s.recordingTimer = false

/- ===== useVoiceInput orchestrator (src/hooks/useVoiceInput.ts) ===== -/

/-- The observable orchestrator state values. -/
inductive VoiceInputState where
  | idle
  | requesting
  | recording
  | processing
  | transcribing
  | recognizing
  | success
  | error
  deriving DecidableEq, Repr

/-- Routes are opaque payloads here: the hook only forwards them. -/
abbrev NavigationRoute := Nat

/-- Actions deferred through setTimeout in the hook; both timeouts invoke
resetState. -/
inductive TimerAction where
  | reset
  deriving DecidableEq, Repr

/-- Externally visible side effects of the hook operations. -/
inductive Effect where
  | requestPermission
  | sendVoiceInput (payload : List Nat) (format : String) (sampleRate : Nat)
  | onStationsRecognized (origin destination : String)
  | onRouteCalculated (routes : List NavigationRoute)
  deriving DecidableEq, Repr

/-- Which of the two optional callbacks were supplied to the hook. -/
structure HookOptions where
  hasOnStationsRecognized : Bool
  hasOnRouteCalculated : Bool
  deriving DecidableEq, Repr

/-- Observable hook state plus the resources the hook owns: the current
audioRecorderRef, every previously created recorder whose reference was
dropped (orphans), and the pending setTimeout tasks with their delays. -/
structure HookState where
  state : VoiceInputState
  errorMessage : Option String
  transcribedText : Option String
  confidence : Option Nat
  recognizedStations : Option (String × String)
  recordingDuration : Nat
  audioRecorder : Option AudioRecorder
  orphans : List AudioRecorder
  pendingTimers : List (Nat × TimerAction)
  deriving DecidableEq, Repr

/-- Initial hook state. -/
def initState : HookState :=
  { state := VoiceInputState.idle
    errorMessage := none
    transcribedText := none
    confidence := none
    recognizedStations := none
    recordingDuration := 0
    audioRecorder := none
    orphans := []
    pendingTimers := [] }

/-- Inbound channel events handled by the hook, one constructor per
registered handler. Confidence is stored opaquely, so a Nat token stands in
for the numeric score. -/
inductive WsMessage where
  | transcriptionStarted (message : String)
  | transcriptionComplete (transcribedText : String) (confidence : Nat)
  | stationsRecognized (origin destination : String)
  | routeCalculated (routes : Option (List NavigationRoute))
  | errorEvent (message : String)
  deriving DecidableEq, Repr

/-- JS-style fallback: error.message or the fallback when empty. -/
def orIfEmpty (m fallback : String) : String := if m = emptyStr then fallback else m

/-- The five wsService.on handlers of the hook, as one dispatch function. -/
def handleWsMessage (opts : HookOptions) (msg : WsMessage) (s : HookState) :
    HookState × List Effect :=
  match msg with
  | .transcriptionStarted _ => ({ s with state := VoiceInputState.transcribing }, [])
  | .transcriptionComplete t c =>
    ({ s with transcribedText := some t, confidence := some c,
              state := VoiceInputState.recognizing }, [])
  | .stationsRecognized o d =>
    ({ s with recognizedStations := some (o, d), state := VoiceInputState.success,
              pendingTimers := s.pendingTimers ++ [(3000, TimerAction.reset)] },
     if opts.hasOnStationsRecognized then [Effect.onStationsRecognized o d] else [])
  | .routeCalculated r =>
    (s, match r with
        | some routes => if opts.hasOnRouteCalculated then [Effect.onRouteCalculated routes] else []
        | none => [])
  | .errorEvent m =>
    ({ s with errorMessage := some m, state := VoiceInputState.error,
              pendingTimers := s.pendingTimers ++ [(5000, TimerAction.reset)] }, [])

/-- Environment seen by one startRecording invocation: platform support,
channel connectivity, the permission outcome, and the recorder start
environment. -/
structure HookEnv where
  support : Bool
  connected : Bool
  permission : Bool
  gumOk : Bool
  gumError : String
  mimeType : Option String
  now : Nat
  deriving DecidableEq, Repr

/-- The recorder instance the hook constructs: maxDuration 10000 and
sampleRate 16000, file-size cap left at its default. -/
def newRecorder : AudioRecorder := mkAudioRecorder (some 10000) none (some 16000)

/-- Overwriting audioRecorderRef.current drops the previous reference; the
previous recorder object keeps existing (and keeps its stream) as an
orphan. -/
def orphanRef (s : HookState) : HookState :=
  match s.audioRecorder with
  | none => s
  | some r => { s with audioRecorder := none, orphans := s.orphans ++ [r] }

/-- The hook startRecording callback: support check, connectivity check,
requesting state, fresh recorder, permission request, then recorder start;
each failure sets the error state with its message; no timer is ever
scheduled here. -/
def VoiceInput.startRecording (env : HookEnv) (s : HookState) : HookState × List Effect :=
  if env.support = false then
    ({ s with errorMessage := some supportErrMsg, state := VoiceInputState.error }, [])
  else if env.connected = false then
    ({ s with errorMessage := some connectErrMsg, state := VoiceInputState.error }, [])
  else
    let s1 := orphanRef { s with state := VoiceInputState.requesting }
    if env.permission = false then
      ({ s1 with audioRecorder := some newRecorder,
                 errorMessage := some permissionErrMsg, state := VoiceInputState.error },
       [Effect.requestPermission])
    else
      let p := AudioRecorder.startRecording
        { support := env.support, mimeType := env.mimeType,
          gumOk := env.gumOk, gumError := env.gumError, now := env.now } newRecorder
      match p.1 with
      | Except.ok _ =>
        ({ s1 with audioRecorder := some p.2, state := VoiceInputState.recording },
         [Effect.requestPermission])
      | Except.error e =>
        ({ s1 with audioRecorder := some p.2, state := VoiceInputState.error,
                   errorMessage := some (orIfEmpty e.message startFallbackMsg) },
         [Effect.requestPermission])

/-- Format derivation in stopRecordingAndSend:
getSupportedMimeType()?.split of semicolon, first part, split of slash,
second part, with webm as the fallback. -/
def formatOf (mime : Option String) : String :=
  match mime with
  | none => webmStr
  | some mt =>
    let fmt := (((mt.splitOn semicolonStr).headD emptyStr).splitOn slashStr).getD 1 emptyStr
    if fmt = emptyStr then webmStr else fmt

/-- The hook stopRecordingAndSend callback: no-op unless a recorder handle
exists and the state is recording; otherwise go to processing, stop the
recorder and either send the payload over the channel or surface the
error. -/
def VoiceInput.stopRecordingAndSend (mime : Option String) (s : HookState) :
    HookState × List Effect :=
  match s.audioRecorder with
  | none => (s, [])
  | some r =>
    if s.state = VoiceInputState.recording then
      let p := AudioRecorder.stopRecording r
      match p.1 with
      | Except.ok result =>
        ({ s with state := VoiceInputState.processing, audioRecorder := some p.2 },
         [Effect.sendVoiceInput result.payload (formatOf mime) 16000])
      | Except.error e =>
        ({ s with state := VoiceInputState.error, audioRecorder := some p.2,
                  errorMessage := some (orIfEmpty e.message sendFallbackMsg) }, [])
    else (s, [])

/-- The hook resetState callback: clear every observable field, cancel and
drop the current recorder if any. Pending setTimeout tasks are not touched
because the source keeps no handle to them. -/
def VoiceInput.resetState (s : HookState) : HookState :=
  let s1 := { s with state := VoiceInputState.idle, errorMessage := none,
                     transcribedText := none, confidence := none,
                     recognizedStations := none, recordingDuration := 0 }
  match s1.audioRecorder with
  | none => s1
  | some r => { s1 with audioRecorder := none,
                        orphans := s1.orphans ++ [AudioRecorder.cancelRecording r] }

/-- The hook cancelRecording callback: cancel and drop the recorder, then
resetState. -/
def VoiceInput.cancelRecording (s : HookState) : HookState :=
  let s1 :=
    match s.audioRecorder with
    | none => s
    | some r => { s with audioRecorder := none,
                         orphans := s.orphans ++ [AudioRecorder.cancelRecording r] }
  VoiceInput.resetState s1

/-- Operations and asynchronous events that can reach one hook instance. -/
inductive HookOp where
  | start (env : HookEnv)
  | stop (mime : Option String)
  | cancel
  | reset
  | ws (msg : WsMessage)
  | fireTimer (i : Nat)
  | refRec (e : RecEvent)
  | orphanRec (i : Nat) (e : RecEvent)
  | durationTick (now : Nat)
  deriving DecidableEq, Repr

/-- One serialized step of the hook. fireTimer i consumes the i-th pending
setTimeout task and runs its action; refRec and orphanRec deliver a
recorder-internal event to the current or to an orphaned recorder;
durationTick is the 100 ms duration sampler. -/
def hookStep (opts : HookOptions) (op : HookOp) (s : HookState) : HookState × List Effect :=
  match op with
  | .start env => VoiceInput.startRecording env s
  | .stop mime => VoiceInput.stopRecordingAndSend mime s
  | .cancel => (VoiceInput.cancelRecording s, [])
  | .reset => (VoiceInput.resetState s, [])
  | .ws msg => handleWsMessage opts msg s
  | .fireTimer i =>
    match s.pendingTimers.get? i with
    | none => (s, [])
    | some (_, TimerAction.reset) =>
      (VoiceInput.resetState { s with pendingTimers := s.pendingTimers.eraseIdx i }, [])
  | .refRec e =>
    match s.audioRecorder with
    | none => (s, [])
    | some r => ({ s with audioRecorder := some (recStep e r).2 }, [])
  | .orphanRec i e =>
    match s.orphans.get? i with
    | none => (s, [])
    | some r => ({ s with orphans := s.orphans.set i (recStep e r).2 }, [])
  | .durationTick now =>
    if s.state = VoiceInputState.recording then
      match s.audioRecorder with
      | some r => ({ s with recordingDuration := AudioRecorder.getRecordingDuration now r }, [])
      | none => (s, [])
    else ({ s with recordingDuration := 0 }, [])

/-- Run a sequence of hook operations, keeping only the final state. -/
def runHook (opts : HookOptions) (ops : List HookOp) (s : HookState) : HookState :=
  match ops with
  | [] => s
  | op :: rest => runHook opts rest (hookStep opts op s).1

/-- A capture session is active while it holds the device stream. -/
def sessionActive (r : AudioRecorder) : Bool := r.stream

/-- Number of active sessions in a list of recorder instances. -/
def countActive (l : List AudioRecorder) : Nat := l.countP sessionActive

/-- Contribution of the referenced recorder, if any, to the active count. -/
def refContrib (o : Option AudioRecorder) : Nat :=
  match o with
  | some r => if sessionActive r then 1 else 0
  | none => 0

/-- Number of capture sessions of the hook currently holding the device
stream, counting both the referenced recorder and the orphans. -/
def activeSessions (s : HookState) : Nat :=
  countActive s.orphans + refContrib s.audioRecorder

/-- Operation sequences in which a new voice-input cycle is only started
while no capture session is active; every other operation is unrestricted. -/
inductive AdmissibleFrom (opts : HookOptions) : HookState → List HookOp → Prop where
  | nil (s : HookState) : AdmissibleFrom opts s []
  | start (s : HookState) (env : HookEnv) (ops : List HookOp) :
      activeSessions s = 0 →
      AdmissibleFrom opts (hookStep opts (HookOp.start env) s).1 ops →
      AdmissibleFrom opts s (HookOp.start env :: ops)
  | step (s : HookState) (op : HookOp) (ops : List HookOp) :
      (∀ env, op ≠ HookOp.start env) →
      AdmissibleFrom opts (hookStep opts op s).1 ops →
      AdmissibleFrom opts s (op :: ops)

/- ===== Sample inputs used by witnesses and counterexamples ===== -/

/-- A fully permissive environment: supported platform, connected channel,
granted permission, working device, opus-in-webm encoding. -/
def goodEnv : HookEnv :=
  { support := true, connected := true, permission := true, gumOk := true,
    gumError := emptyStr, mimeType := some mimeWebmOpus, now := 7 }

/-- goodEnv with the channel disconnected. -/
def disconnEnv : HookEnv := { goodEnv with connected := false }

/-- goodEnv on an unsupported platform with the channel disconnected. -/
def badEnv : HookEnv := { goodEnv with support := false, connected := false }

/-- Hook options with both callbacks supplied. -/
def defaultOpts : HookOptions :=
  { hasOnStationsRecognized := true, hasOnRouteCalculated := true }

/-- Recorder environment matching goodEnv. -/
def recGoodEnv : RecEnv :=
  { support := true, mimeType := some mimeWebmOpus, gumOk := true,
    gumError := emptyStr, now := 7 }

/-- A freshly started recorder that has collected one 1500-byte chunk. -/
def c4State : AudioRecorder :=
  (recStep (RecEvent.dataChunk 1500)
    (AudioRecorder.startRecording recGoodEnv (mkAudioRecorder (some 10000) none (some 16000))).2).2

/-- A freshly started recorder that has collected one 2000-byte chunk. -/
def c5State : AudioRecorder :=
  (recStep (RecEvent.dataChunk 2000)
    (AudioRecorder.startRecording recGoodEnv (mkAudioRecorder (some 10000) none (some 16000))).2).2

/-- Sample origin station name. -/
def originSample : String := "사당"

/-- Sample destination station name. -/
def destSample : String := "강남"

/- ===== Theorems ===== -/

/-- Claim C6: cancelRecording always leaves the device stream released,
produces no CaptureResult, and is idempotent: a second cancel has the same
effect as the first. -/
theorem cancelRecordingIdempotentRelease (s : AudioRecorder) :
    (AudioRecorder.cancelRecording s).stream = false ∧
    (recStep RecEvent.cancel s).1 = none ∧
    AudioRecorder.cancelRecording (AudioRecorder.cancelRecording s) =
      AudioRecorder.cancelRecording s :=
  ⟨rfl, rfl, rfl⟩

/-- Claim C8: the stations_recognized handler is total on every hook state,
including states never visited by transcription_complete: it stores the
recognized stations, moves to success, schedules the 3000 ms reset and fires
the callback when supplied. -/
theorem stationsRecognizedFastPath (opts : HookOptions) (o d : String) (s : HookState) :
    handleWsMessage opts (WsMessage.stationsRecognized o d) s =
      ({ s with recognizedStations := some (o, d), state := VoiceInputState.success,
                pendingTimers := s.pendingTimers ++ [(3000, TimerAction.reset)] },
       if opts.hasOnStationsRecognized then [Effect.onStationsRecognized o d] else []) :=
  rfl

/-- Claim C9: the route_calculated handler leaves the hook state exactly
unchanged, every observable field included, and only forwards the routes to
the onRouteCalculated callback when both the callback and the routes are
present. -/
theorem routeCalculatedFrame (opts : HookOptions) (r : Option (List NavigationRoute))
    (s : HookState) :
    (handleWsMessage opts (WsMessage.routeCalculated r) s).1 = s ∧
    (handleWsMessage opts (WsMessage.routeCalculated r) s).2 =
      (match r with
       | some routes => if opts.hasOnRouteCalculated then [Effect.onRouteCalculated routes] else []
       | none => []) :=
  ⟨rfl, rfl⟩

/-- Claim C10: stopRecordingAndSend without a recorder handle or outside the
recording state returns without changing any field and without emitting any
effect. -/
theorem stopRecordingGuardNoOp (mime : Option String) (s : HookState)
    (h : s.audioRecorder = none ∨ s.state ≠ VoiceInputState.recording) :
    VoiceInput.stopRecordingAndSend mime s = (s, []) := by
  unfold VoiceInput.stopRecordingAndSend
  rcases ha : s.audioRecorder with _ | r
  · rfl
  · rcases h with h | h
    · rw [ha] at h; cases h
    · simp [h]

/-- Claim C10 witness: in the initial state the guard applies. -/
theorem stopRecordingGuardNoOp_witness :
    VoiceInput.stopRecordingAndSend none initState = (initState, []) :=
  stopRecordingGuardNoOp none initState (Or.inl rfl)

/-- Claim C3 counterexample: the support-check failure path of
startRecording enters the error state without scheduling any auto-revert
task, so not every entry into error schedules a 5000 ms revert. -/
theorem errorWithoutAutoRevert :
    (VoiceInput.startRecording badEnv initState).1.state = VoiceInputState.error ∧
    (VoiceInput.startRecording badEnv initState).1.pendingTimers = [] :=
  ⟨rfl, rfl⟩

/-- Claim C3 (amended): entering success via stations_recognized schedules a
3000 ms reset and entering error via the backend error event schedules a
5000 ms reset, while startRecording and stopRecordingAndSend never schedule
any task, so their locally detected error entries have no auto-revert. -/
theorem autoRevertScheduling (opts : HookOptions) (o d m : String) (env : HookEnv)
    (mime : Option String) (s : HookState) :
    (handleWsMessage opts (WsMessage.stationsRecognized o d) s).1.state =
      VoiceInputState.success ∧
    (handleWsMessage opts (WsMessage.stationsRecognized o d) s).1.pendingTimers =
      s.pendingTimers ++ [(3000, TimerAction.reset)] ∧
    (handleWsMessage opts (WsMessage.errorEvent m) s).1.state = VoiceInputState.error ∧
    (handleWsMessage opts (WsMessage.errorEvent m) s).1.pendingTimers =
      s.pendingTimers ++ [(5000, TimerAction.reset)] ∧
    (VoiceInput.startRecording env s).1.pendingTimers = s.pendingTimers ∧
    (VoiceInput.stopRecordingAndSend mime s).1.pendingTimers = s.pendingTimers := by
  refine ⟨rfl, rfl, rfl, rfl, ?_, ?_⟩
  · unfold VoiceInput.startRecording
    dsimp only
    split
    · rfl
    split
    · rfl
    split
    · unfold orphanRef
      split <;> rfl
    · unfold orphanRef
      dsimp only
      split <;> split <;> rfl
  · unfold VoiceInput.stopRecordingAndSend
    dsimp only
    split
    · rfl
    split
    · split <;> rfl
    · rfl

/-- Claim C7 counterexample: with the platform unsupported and the channel
disconnected, startRecording enters error with the browser-support message,
not the connectivity message, because the support check runs first. -/
theorem startUnsupportedDisconnected :
    (VoiceInput.startRecording badEnv initState).1.errorMessage = some supportErrMsg ∧
    supportErrMsg ≠ connectErrMsg :=
  ⟨rfl, by decide⟩

/-- Claim C7 (amended): whenever the channel is disconnected, startRecording
never requests microphone permission, and when additionally the platform is
supported it enters error with the connectivity message. -/
theorem startDisconnectedNoPermission (env : HookEnv) (s : HookState)
    (hc : env.connected = false) :
    Effect.requestPermission ∉ (VoiceInput.startRecording env s).2 ∧
    (env.support = true →
      (VoiceInput.startRecording env s).1.state = VoiceInputState.error ∧
      (VoiceInput.startRecording env s).1.errorMessage = some connectErrMsg) := by
  by_cases hsup : env.support = false
  · constructor
    · simp [VoiceInput.startRecording, hsup]
    · intro h; rw [h] at hsup; cases hsup
  · have hs : env.support = true := by revert hsup; cases env.support <;> simp
    constructor
    · simp [VoiceInput.startRecording, hs, hc]
    · intro _
      constructor <;> simp [VoiceInput.startRecording, hs, hc]

/-- Claim C7 witness: the amended statement evaluated in the permissive
environment with the channel disconnected, from the initial state. -/
theorem startDisconnectedNoPermission_witness :
    Effect.requestPermission ∉ (VoiceInput.startRecording disconnEnv initState).2 ∧
    (disconnEnv.support = true →
      (VoiceInput.startRecording disconnEnv initState).1.state = VoiceInputState.error ∧
      (VoiceInput.startRecording disconnEnv initState).1.errorMessage = some connectErrMsg) :=
  startDisconnectedNoPermission disconnEnv initState rfl

/-- Claim C1 evidence: the 3000 ms success auto-revert is fire-and-forget in
the source, so when a new cycle starts before it elapses the task is still
pending, and firing it resets the hook to idle in the middle of the new
recording, dropping the active recorder. -/
theorem successTimerFiresMidCycle :
    (runHook defaultOpts
      [HookOp.ws (WsMessage.stationsRecognized originSample destSample),
       HookOp.start goodEnv] initState).state = VoiceInputState.recording ∧
    (runHook defaultOpts
      [HookOp.ws (WsMessage.stationsRecognized originSample destSample),
       HookOp.start goodEnv] initState).pendingTimers = [(3000, TimerAction.reset)] ∧
    (runHook defaultOpts
      [HookOp.ws (WsMessage.stationsRecognized originSample destSample),
       HookOp.start goodEnv, HookOp.fireTimer 0] initState).state = VoiceInputState.idle ∧
    (runHook defaultOpts
      [HookOp.ws (WsMessage.stationsRecognized originSample destSample),
       HookOp.start goodEnv, HookOp.fireTimer 0] initState).audioRecorder = none :=
  ⟨rfl, rfl, rfl, rfl⟩

/-- Claim C2 counterexample: two consecutive startRecording invocations in a
permissive environment leave two capture sessions holding the device stream
at the same time, because the hook never terminates the previous session. -/
theorem doubleStartTwoActiveSessions :
    activeSessions (runHook defaultOpts
      [HookOp.start goodEnv, HookOp.start goodEnv] initState) = 2 :=
  rfl

/-- Cleanup establishes the resource invariant unconditionally. -/
theorem recInv_cleanup (s : AudioRecorder) : RecInv s.cleanup :=
  fun _ => ⟨rfl, rfl⟩

/-- startRecording preserves the resource invariant. -/
theorem recInv_start (env : RecEnv) (s : AudioRecorder) (h : RecInv s) :
    RecInv (AudioRecorder.startRecording env s).2 := by
  unfold AudioRecorder.startRecording
  split
  · exact h
  split
  · exact h
  split
  · exact recInv_cleanup s
  · intro hcontra
    exact absurd rfl hcontra

/-- stopRecording preserves the resource invariant. -/
theorem recInv_stop (s : AudioRecorder) (h : RecInv s) :
    RecInv (AudioRecorder.stopRecording s).2 := by
  unfold AudioRecorder.stopRecording
  split
  · dsimp only
    split
    · exact recInv_cleanup _
    · split
      · exact recInv_cleanup _
      · exact recInv_cleanup _
  · exact h

/-- Every recorder event preserves the resource invariant. -/
theorem recInv_step (e : RecEvent) (s : AudioRecorder) (h : RecInv s) :
    RecInv (recStep e s).2 := by
  cases e with
  | timerFire =>
    have h0 : RecInv { s with recordingTimer := false } := by
      intro hnr
      exact ⟨(h hnr).1, rfl⟩
    simp only [recStep]
    split
    · dsimp only
      split
      · exact recInv_stop _ h0
      · exact h0
    · exact h
  | callerStop =>
    simp only [recStep]
    exact recInv_stop s h
  | cancel =>
    simp only [recStep]
    exact recInv_cleanup _
  | dataChunk n =>
    simp only [recStep]
    split
    · rename_i h1
      intro hnr
      exact absurd h1.1 hnr
    · exact h

/-- Every reachable recorder state satisfies the resource invariant. -/
theorem recReachable_inv (s : AudioRecorder) (h : RecReachable s) : RecInv s := by
  induction h with
  | init mo mf sr => intro _; exact ⟨rfl, rfl⟩
  | start env s hs ih => exact recInv_start env s ih
  | evt e s hs ih => exact recInv_step e s ih

/-- Claim C4: on every reachable recorder state, stopRecording fails exactly
when there is no active session, the blob exceeds maxFileSize, or the blob
is below the 1000-byte silence threshold; and in every outcome the resulting
state holds no device stream and no armed duration timer. -/
theorem stopFailsExactlyAndReleases (s : AudioRecorder) (hs : RecReachable s) :
    ((AudioRecorder.stopRecording s).1.toOption = none ↔
      (s.mediaRecorder ≠ some MRState.recording ∨
       s.maxFileSize < blobSize s.audioChunks ∨ blobSize s.audioChunks < 1000)) ∧
    (AudioRecorder.stopRecording s).2.stream = false ∧
    (AudioRecorder.stopRecording s).2.recordingTimer = false := by
  have hinv := recReachable_inv s hs
  by_cases hrec : s.mediaRecorder = some MRState.recording
  · unfold AudioRecorder.stopRecording
    rw [if_pos hrec]
    dsimp only
    by_cases h1 : s.maxFileSize < blobSize s.audioChunks
    · simp [h1, hrec, Except.toOption, AudioRecorder.cleanup]
    · by_cases h2 : blobSize s.audioChunks < 1000
      · simp [h1, h2, hrec, Except.toOption, AudioRecorder.cleanup]
      · simp [h1, h2, hrec, Except.toOption, AudioRecorder.cleanup]
  · have hsp := hinv hrec
    unfold AudioRecorder.stopRecording
    rw [if_neg hrec]
    exact ⟨by simp [Except.toOption, hrec], hsp.1, hsp.2⟩

/-- The state used by the C4 witness is reachable. -/
theorem c4State_reachable : RecReachable c4State :=
  RecReachable.evt (RecEvent.dataChunk 1500) _
    (RecReachable.start recGoodEnv _ (RecReachable.init (some 10000) none (some 16000)))

/-- Claim C4 witness: the theorem applied to a concrete reachable session
holding one 1500-byte chunk. -/
theorem stopFailsExactlyAndReleases_witness :
    RecReachable c4State ∧
    (((AudioRecorder.stopRecording c4State).1.toOption = none ↔
       (c4State.mediaRecorder ≠ some MRState.recording ∨
        c4State.maxFileSize < blobSize c4State.audioChunks ∨
        blobSize c4State.audioChunks < 1000)) ∧
     (AudioRecorder.stopRecording c4State).2.stream = false ∧
     (AudioRecorder.stopRecording c4State).2.recordingTimer = false) :=
  ⟨c4State_reachable, stopFailsExactlyAndReleases c4State c4State_reachable⟩

/-- When stopRecording finalizes an active session, the resulting state has
no MediaRecorder, no stream and no armed timer. -/
theorem stop_from_recording_post (s : AudioRecorder)
    (h : s.mediaRecorder = some MRState.recording) :
    (AudioRecorder.stopRecording s).2.mediaRecorder = none ∧
    (AudioRecorder.stopRecording s).2.stream = false ∧
    (AudioRecorder.stopRecording s).2.recordingTimer = false := by
  unfold AudioRecorder.stopRecording
  rw [if_pos h]
  dsimp only
  split
  · exact ⟨rfl, rfl, rfl⟩
  · split
    · exact ⟨rfl, rfl, rfl⟩
    · exact ⟨rfl, rfl, rfl⟩

/-- With the timer disarmed but everything else equal, stopRecording of an
active session behaves identically, because its first action is to clear the
timer. -/
theorem stop_timer_irrelevant (s : AudioRecorder)
    (h : s.mediaRecorder = some MRState.recording) :
    AudioRecorder.stopRecording { s with recordingTimer := false } =
      AudioRecorder.stopRecording s := by
  have h0 : ({ s with recordingTimer := false } : AudioRecorder).mediaRecorder =
      some MRState.recording := h
  unfold AudioRecorder.stopRecording
  rw [if_pos h0, if_pos h]

/-- A recorder event on a non-recording state produces no result and leaves
the state non-recording. -/
theorem recStep_not_recording (e : RecEvent) (s : AudioRecorder)
    (h : s.mediaRecorder ≠ some MRState.recording) :
    (recStep e s).1 = none ∧ (recStep e s).2.mediaRecorder ≠ some MRState.recording := by
  cases e with
  | timerFire =>
    simp only [recStep]
    split
    · exact ⟨rfl, h⟩
    · exact ⟨rfl, h⟩
  | callerStop =>
    simp only [recStep]
    unfold AudioRecorder.stopRecording
    rw [if_neg h]
    exact ⟨rfl, h⟩
  | cancel =>
    refine ⟨rfl, ?_⟩
    intro hcontra
    simp [recStep, AudioRecorder.cancelRecording, AudioRecorder.cleanup] at hcontra
  | dataChunk n =>
    simp only [recStep]
    split
    · rename_i h1
      exact absurd h1.1 h
    · exact ⟨rfl, h⟩

/-- A trace of recorder events starting from a non-recording state produces
no CaptureResult at all. -/
theorem runRec_not_recording (evs : List RecEvent) (s : AudioRecorder)
    (h : s.mediaRecorder ≠ some MRState.recording) :
    (runRec evs s).1 = [] := by
  induction evs generalizing s with
  | nil => rfl
  | cons e rest ih =>
    unfold runRec
    dsimp only
    have h1 := recStep_not_recording e s h
    rw [h1.1, ih _ h1.2]
    rfl

/-- Every recorder event either produces no result or leaves the state
non-recording. -/
theorem recStep_cases (e : RecEvent) (s : AudioRecorder) :
    (recStep e s).1 = none ∨ (recStep e s).2.mediaRecorder ≠ some MRState.recording := by
  cases e with
  | timerFire =>
    simp only [recStep]
    split
    · dsimp only
      split
      · rename_i hcond
        right
        rw [(stop_from_recording_post { s with recordingTimer := false } hcond).1]
        simp
      · left; rfl
    · left; rfl
  | callerStop =>
    by_cases h : s.mediaRecorder = some MRState.recording
    · right
      simp only [recStep]
      rw [(stop_from_recording_post s h).1]
      simp
    · left
      simp only [recStep]
      unfold AudioRecorder.stopRecording
      rw [if_neg h]
      rfl
  | cancel => left; rfl
  | dataChunk n =>
    simp only [recStep]
    split
    · left; rfl
    · left; rfl

/-- Claim C5: over every event trace, at most one CaptureResult is ever
produced, so a stop racing the auto-stop timer cannot duplicate the result;
and the timer firing on an armed recording session finalizes it exactly as a
caller stop would, disarming the timer. -/
theorem captureAutoFinalizeOnce :
    (∀ (evs : List RecEvent) (s : AudioRecorder), ((runRec evs s).1).length ≤ 1) ∧
    (∀ s : AudioRecorder, s.recordingTimer = true →
      s.mediaRecorder = some MRState.recording →
      recStep RecEvent.timerFire s =
        ((AudioRecorder.stopRecording s).1.toOption, (AudioRecorder.stopRecording s).2) ∧
      (recStep RecEvent.timerFire s).2.recordingTimer = false) := by
  constructor
  · intro evs
    induction evs with
    | nil => intro s; simp [runRec]
    | cons e rest ih =>
      intro s
      unfold runRec
      dsimp only
      rcases recStep_cases e s with h | h
      · rw [h]
        simpa using ih (recStep e s).2
      · rcases ho : (recStep e s).1 with _ | r
        · simpa using ih (recStep e s).2
        · rw [runRec_not_recording rest _ h]
          simp
  · intro s h1 h2
    have h2' : ({ s with recordingTimer := false } : AudioRecorder).mediaRecorder =
        some MRState.recording := h2
    have heq : recStep RecEvent.timerFire s =
        ((AudioRecorder.stopRecording s).1.toOption, (AudioRecorder.stopRecording s).2) := by
      simp only [recStep]
      rw [if_pos h1]
      dsimp only
      rw [if_pos h2', stop_timer_irrelevant s h2]
    refine ⟨heq, ?_⟩
    rw [heq]
    exact (stop_from_recording_post s h2).2.2

/-- Claim C5 witness: the theorem applied to a concrete armed recording
session holding one 2000-byte chunk, with a trace in which the caller stop
races the timer auto-stop. -/
theorem captureAutoFinalizeOnce_witness :
    ((runRec [RecEvent.timerFire, RecEvent.callerStop] c5State).1).length ≤ 1 ∧
    recStep RecEvent.timerFire c5State =
      ((AudioRecorder.stopRecording c5State).1.toOption,
       (AudioRecorder.stopRecording c5State).2) ∧
    (recStep RecEvent.timerFire c5State).2.recordingTimer = false :=
  ⟨captureAutoFinalizeOnce.1 [RecEvent.timerFire, RecEvent.callerStop] c5State,
   (captureAutoFinalizeOnce.2 c5State rfl rfl).1,
   (captureAutoFinalizeOnce.2 c5State rfl rfl).2⟩

/-- A cancelled recorder never holds the device stream. -/
theorem cancel_inactive (r : AudioRecorder) :
    sessionActive (AudioRecorder.cancelRecording r) = false := rfl

/-- stopRecording never acquires the stream: if the stream is held after, it
was held before. -/
theorem stop_stream_mono (r : AudioRecorder) :
    sessionActive (AudioRecorder.stopRecording r).2 = true → sessionActive r = true := by
  unfold AudioRecorder.stopRecording
  split
  · dsimp only
    split
    · intro hc
      simp [sessionActive, AudioRecorder.cleanup] at hc
    · split
      · intro hc
        simp [sessionActive, AudioRecorder.cleanup] at hc
      · intro hc
        simp [sessionActive, AudioRecorder.cleanup] at hc
  · intro hc
    exact hc

/-- No recorder event acquires the device stream. -/
theorem recStep_stream_mono (e : RecEvent) (r : AudioRecorder) :
    sessionActive (recStep e r).2 = true → sessionActive r = true := by
  cases e with
  | timerFire =>
    simp only [recStep]
    split
    · dsimp only
      split
      · intro hc
        exact stop_stream_mono { r with recordingTimer := false } hc
      · intro hc
        exact hc
    · intro hc
      exact hc
  | callerStop =>
    simp only [recStep]
    exact stop_stream_mono r
  | cancel =>
    simp only [recStep]
    intro hc
    simp [sessionActive, AudioRecorder.cancelRecording, AudioRecorder.cleanup] at hc
  | dataChunk n =>
    simp only [recStep]
    split
    · intro hc
      exact hc
    · intro hc
      exact hc

/-- Active-session count distributes over list append. -/
theorem countActive_append (l1 l2 : List AudioRecorder) :
    countActive (l1 ++ l2) = countActive l1 + countActive l2 := by
  simp [countActive, List.countP_append]

/-- Active-session count of a singleton equals its reference contribution. -/
theorem countActive_singleton (r : AudioRecorder) :
    countActive [r] = refContrib (some r) := by
  simp [countActive, refContrib, List.countP_cons, List.countP_nil]

/-- Replacing one element by one that is active only if the original was
cannot increase the active count. -/
theorem countActive_set_le (l : List AudioRecorder) (i : Nat) (a : AudioRecorder)
    (h : ∀ b, l.get? i = some b → sessionActive a = true → sessionActive b = true) :
    countActive (l.set i a) ≤ countActive l := by
  induction l generalizing i with
  | nil => exact Nat.le_refl _
  | cons x xs ih =>
    cases i with
    | zero =>
      simp only [List.set_cons_zero, countActive, List.countP_cons]
      have hx := h x rfl
      refine Nat.add_le_add_left ?_ _
      by_cases hb : sessionActive a = true
      · simp [hb, hx hb]
      · have hb' : sessionActive a = false := by
          revert hb; cases sessionActive a <;> simp
        simp [hb']
    | succ j =>
      simp only [List.set_cons_succ, countActive, List.countP_cons]
      refine Nat.add_le_add_right ?_ _
      exact ih j (fun b hb => h b hb)

/-- Reference contributions are monotone along stream monotonicity. -/
theorem refContrib_mono (a b : AudioRecorder)
    (h : sessionActive a = true → sessionActive b = true) :
    refContrib (some a) ≤ refContrib (some b) := by
  unfold refContrib
  by_cases ha : sessionActive a = true
  · simp [ha, h ha]
  · have ha' : sessionActive a = false := by
      revert ha; cases sessionActive a <;> simp
    simp [ha']

/-- A reference contributes at most one active session. -/
theorem refContrib_le_one (o : Option AudioRecorder) : refContrib o ≤ 1 := by
  rcases o with _ | r
  · exact Nat.zero_le 1
  · show (if sessionActive r then 1 else 0) ≤ 1
    split
    · exact Nat.le_refl 1
    · exact Nat.zero_le 1

/-- After orphanRef the reference slot is empty. -/
theorem orphanRef_ref (s : HookState) : (orphanRef s).audioRecorder = none := by
  unfold orphanRef
  rcases hr : s.audioRecorder with _ | r
  · exact hr
  · rfl

/-- orphanRef preserves the total active count, moving the reference
contribution into the orphan list. -/
theorem orphanRef_count (s : HookState) :
    countActive (orphanRef s).orphans = countActive s.orphans + refContrib s.audioRecorder := by
  unfold orphanRef
  rcases hr : s.audioRecorder with _ | r
  · simp [refContrib]
  · show countActive (s.orphans ++ [r]) = countActive s.orphans + refContrib (some r)
    rw [countActive_append, countActive_singleton]

/-- Channel-event handlers never touch the recorder instances. -/
theorem ws_active_eq (opts : HookOptions) (msg : WsMessage) (s : HookState) :
    activeSessions (handleWsMessage opts msg s).1 = activeSessions s := by
  cases msg <;> rfl

/-- Moving a cancelled recorder into the orphans and emptying the reference
slot does not increase the active count. -/
theorem moveCancelled_le (s : HookState) (r : AudioRecorder) :
    countActive (s.orphans ++ [AudioRecorder.cancelRecording r]) +
      refContrib (none : Option AudioRecorder) ≤
      countActive s.orphans + refContrib (some r) := by
  rw [countActive_append, countActive_singleton]
  have h1 : refContrib (some (AudioRecorder.cancelRecording r)) = 0 := rfl
  have h2 : refContrib (none : Option AudioRecorder) = 0 := rfl
  rw [h1, h2]
  have h3 := refContrib_le_one (some r)
  omega

/-- resetState never increases the active-session count. -/
theorem resetState_active_le (s : HookState) :
    activeSessions (VoiceInput.resetState s) ≤ activeSessions s := by
  unfold VoiceInput.resetState activeSessions
  dsimp only
  rcases hr : s.audioRecorder with _ | r
  · exact Nat.le_refl _
  · exact moveCancelled_le s r

/-- A state whose orphan list holds no active session and whose reference is
some recorder has at most one active session. -/
theorem start_result_le_one (s1 : HookState) (q : AudioRecorder)
    (h : countActive s1.orphans = 0) :
    countActive s1.orphans + refContrib (some q) ≤ 1 := by
  rw [h]
  have hq := refContrib_le_one (some q)
  omega

/-- Every hook operation other than startRecording leaves the active-session
count no larger than before. -/
theorem hookStep_active_le (opts : HookOptions) (op : HookOp) (s : HookState)
    (hop : ∀ env, op ≠ HookOp.start env) :
    activeSessions (hookStep opts op s).1 ≤ activeSessions s := by
  cases op with
  | start env => exact absurd rfl (hop env)
  | stop mime =>
    simp only [hookStep]
    unfold VoiceInput.stopRecordingAndSend
    dsimp only
    split
    · exact Nat.le_refl _
    · rename_i r heq
      split
      · split
        · rename_i v hv
          show countActive s.orphans + refContrib (some (AudioRecorder.stopRecording r).2) ≤
              activeSessions s
          unfold activeSessions
          rw [heq]
          exact Nat.add_le_add_left (refContrib_mono _ _ (stop_stream_mono r)) _
        · rename_i e he
          show countActive s.orphans + refContrib (some (AudioRecorder.stopRecording r).2) ≤
              activeSessions s
          unfold activeSessions
          rw [heq]
          exact Nat.add_le_add_left (refContrib_mono _ _ (stop_stream_mono r)) _
      · exact Nat.le_refl _
  | cancel =>
    simp only [hookStep]
    unfold VoiceInput.cancelRecording
    dsimp only
    split
    · exact resetState_active_le s
    · rename_i r heq
      refine Nat.le_trans (resetState_active_le _) ?_
      show countActive (s.orphans ++ [AudioRecorder.cancelRecording r]) +
          refContrib (none : Option AudioRecorder) ≤ activeSessions s
      unfold activeSessions
      rw [heq]
      exact moveCancelled_le s r
  | reset =>
    simp only [hookStep]
    exact resetState_active_le s
  | ws msg =>
    simp only [hookStep]
    exact Nat.le_of_eq (ws_active_eq opts msg s)
  | fireTimer i =>
    simp only [hookStep]
    split
    · exact Nat.le_refl _
    · exact Nat.le_trans (resetState_active_le _) (Nat.le_refl _)
  | refRec e =>
    simp only [hookStep]
    split
    · exact Nat.le_refl _
    · rename_i r heq
      show countActive s.orphans + refContrib (some (recStep e r).2) ≤ activeSessions s
      unfold activeSessions
      rw [heq]
      exact Nat.add_le_add_left (refContrib_mono _ _ (recStep_stream_mono e r)) _
  | orphanRec i e =>
    simp only [hookStep]
    split
    · exact Nat.le_refl _
    · rename_i r heq
      show countActive (s.orphans.set i (recStep e r).2) + refContrib s.audioRecorder ≤
          activeSessions s
      unfold activeSessions
      refine Nat.add_le_add_right ?_ _
      refine countActive_set_le s.orphans i (recStep e r).2 ?_
      intro b hb hact
      rw [heq] at hb
      injection hb with hb2
      rw [← hb2]
      exact recStep_stream_mono e r hact
  | durationTick now =>
    simp only [hookStep]
    split
    · split
      · exact Nat.le_refl _
      · exact Nat.le_refl _
    · exact Nat.le_refl _

/-- Starting a cycle from a state with no active session yields at most one
active session: the dropped reference was inactive and the fresh recorder
contributes at most one stream. -/
theorem hookStep_start_le_one (opts : HookOptions) (env : HookEnv) (s : HookState)
    (h : activeSessions s = 0) :
    activeSessions (hookStep opts (HookOp.start env) s).1 ≤ 1 := by
  have h' : countActive s.orphans + refContrib s.audioRecorder = 0 := h
  have hc2 : countActive (orphanRef { s with state := VoiceInputState.requesting }).orphans =
      countActive s.orphans + refContrib s.audioRecorder := orphanRef_count _
  have hc0 : countActive (orphanRef { s with state := VoiceInputState.requesting }).orphans = 0 := by
    rw [hc2]
    exact h'
  simp only [hookStep]
  unfold VoiceInput.startRecording
  dsimp only
  split
  · have h1 : activeSessions s ≤ 1 := by
      rw [h]
      exact Nat.zero_le 1
    exact h1
  split
  · have h1 : activeSessions s ≤ 1 := by
      rw [h]
      exact Nat.zero_le 1
    exact h1
  split
  · exact start_result_le_one (orphanRef { s with state := VoiceInputState.requesting })
      newRecorder hc0
  · split
    · exact start_result_le_one (orphanRef { s with state := VoiceInputState.requesting })
        _ hc0
    · exact start_result_le_one (orphanRef { s with state := VoiceInputState.requesting })
        _ hc0

/-- Claim C2 (amended): along every operation sequence in which a new cycle
is only started while no capture session is active, the hook never holds
more than one active capture session. -/
theorem atMostOneActiveSession (opts : HookOptions) (s : HookState) (ops : List HookOp)
    (h : AdmissibleFrom opts s ops) :
    activeSessions s ≤ 1 → activeSessions (runHook opts ops s) ≤ 1 := by
  induction h with
  | nil t =>
    intro h0
    exact h0
  | start t env ops hz hadm ih =>
    intro _
    exact ih (hookStep_start_le_one opts env t hz)
  | step t op ops hne hadm ih =>
    intro h0
    exact ih (Nat.le_trans (hookStep_active_le opts op t hne) h0)

/-- Claim C2 witness: an admissible cycle from the initial state in which a
recording is started, stopped and cancelled keeps at most one active
session. -/
theorem atMostOneActiveSession_witness :
    activeSessions (runHook defaultOpts
      [HookOp.start goodEnv, HookOp.stop (some mimeWebmOpus), HookOp.cancel]
      initState) ≤ 1 :=
  atMostOneActiveSession defaultOpts initState
    [HookOp.start goodEnv, HookOp.stop (some mimeWebmOpus), HookOp.cancel]
    (AdmissibleFrom.start initState goodEnv _ (by decide)
      (AdmissibleFrom.step _ (HookOp.stop (some mimeWebmOpus)) _ (fun env hcontra => nomatch hcontra)
        (AdmissibleFrom.step _ HookOp.cancel _ (fun env hcontra => nomatch hcontra)
          (AdmissibleFrom.nil _))))
    (by decide)
